import Mathlib

/-!
Verification of the InvestIQ investment-research application.

The repository snapshot contains the React/TypeScript frontend
(`frontend/src/...`) and shared type declarations.  The FastAPI backend
(cache service, technical-indicator calculator, watchlist and brief routes)
is referenced by the documentation but its Python sources are not in the
snapshot; where a property depends on that backend code, the corresponding
definition is modelled from the specification and marked
`Modelled from the spec:` in its doc comment.  All other definitions are
translated directly from the TypeScript sources.
-/

namespace InvestIQ

/-- Modelled from the spec: one row of the backend cache store
(`/app/services/cache.py`, not in the snapshot): a key, an opaque payload
and an expiry timestamp. -/
structure CacheRow (α : Type) where
  key : String
  payload : α
  expiry : Nat
deriving Repr

/-- The backend cache table: a list of rows. -/
def CacheStore (α : Type) : Type := List (CacheRow α)

/-- Modelled from the spec: `put` is an upsert — it replaces any existing
row for the same key, storing the payload with expiry `now + ttl`. -/
def cachePut {α : Type} (s : CacheStore α) (k : String) (v : α)
    (ttl now : Nat) : CacheStore α :=
  { key := k, payload := v, expiry := now + ttl } ::
    List.filter (fun r => r.key ≠ k) s

/-- Modelled from the spec: `get` returns the payload if an unexpired row
exists for the key; a miss occurs when no row exists or the stored expiry
has passed. -/
def cacheGet {α : Type} (s : CacheStore α) (k : String) (t : Nat) :
    Option α :=
  match List.find? (fun r => r.key = k) s with
  | none => none
  | some r => if r.expiry < t then none else some r.payload

/-- Whether the store holds any row for the key. -/
def cacheHasRow {α : Type} (s : CacheStore α) (k : String) : Bool :=
  List.any s (fun r => r.key = k)

theorem cacheGet_of_not_hasRow {α : Type} (s : CacheStore α) (k : String)
    (t : Nat) (h : cacheHasRow s k = false) : cacheGet s k t = none := by
  unfold cacheGet
  have hfind : List.find? (fun r => decide (r.key = k)) s = none := by
    rw [List.find?_eq_none]
    intro r hr
    have := List.any_eq_false.mp h r hr
    simpa using this
  simp only [hfind]

/-- **C1.** After `put(k, v, ttl)` at time `now`, a `get(k)` at any time
before the TTL has elapsed returns `v`; a `get(k)` after the TTL has
elapsed is a miss; and a `get` on a store holding no row for the key is a
miss. -/
theorem cache_put_get_ttl {α : Type} (s : CacheStore α) (k : String)
    (v : α) (ttl now t : Nat) :
    (t < now + ttl → cacheGet (cachePut s k v ttl now) k t = some v) ∧
    (now + ttl < t → cacheGet (cachePut s k v ttl now) k t = none) ∧
    (∀ (s' : CacheStore α), cacheHasRow s' k = false →
      cacheGet s' k t = none) := by
  have hget : cacheGet (cachePut s k v ttl now) k t =
      if now + ttl < t then none else some v := by
    unfold cacheGet cachePut
    simp
  refine ⟨?_, ?_, ?_⟩
  · intro h
    rw [hget, if_neg]
    omega
  · intro h
    rw [hget, if_pos h]
  · intro s' h
    exact cacheGet_of_not_hasRow s' k t h

/-- Witness for C1 at concrete inputs: key `"AAPL"`, value `7`, TTL `10`,
written at time `100`; a read at `105` hits, a read at `111` misses, and a
read on the empty store misses. -/
theorem cache_put_get_ttl_witness :
    cacheGet (cachePut ([] : CacheStore Nat) "AAPL" 7 10 100) "AAPL" 105 =
      some 7 ∧
    cacheGet (cachePut ([] : CacheStore Nat) "AAPL" 7 10 100) "AAPL" 111 =
      none ∧
    cacheGet ([] : CacheStore Nat) "AAPL" 105 = none := by
  have h := cache_put_get_ttl ([] : CacheStore Nat) "AAPL" 7 10 100 105
  have h' := cache_put_get_ttl ([] : CacheStore Nat) "AAPL" 7 10 100 111
  exact ⟨h.1 (by decide), h'.2.1 (by decide), h.2.2 [] (by decide)⟩

/-! ## Technical-indicator types (from `frontend/src/types` / unnamed typings) -/

/-- Sentiment classification, from the TypeScript union
`'bullish' | 'bearish' | 'neutral'`. -/
inductive Sentiment where
  | bullish
  | bearish
  | neutral
deriving DecidableEq, Repr

/-- The moving-average block of the `TechnicalIndicators` payload, from the
TypeScript interface `MovingAverages`: `sma_20 : number`,
`sma_50 : number`, `sma_200 : number | null`, `ema_12 : number`,
`ema_26 : number`.  Only `sma_200` is nullable. -/
structure MovingAverages where
  sma_20 : ℚ
  sma_50 : ℚ
  sma_200 : Option ℚ
  ema_12 : ℚ
  ema_26 : ℚ
deriving Repr

/-- The five moving-average fields of the `MovingAverages` interface. -/
inductive MAField where
  | sma20
  | sma50
  | sma200
  | ema12
  | ema26
deriving DecidableEq, Repr

/-- Whether a moving-average field of the TypeScript `MovingAverages`
interface admits `null` (an "unavailable" representation).  Read off the
declared field types: only `sma_200` is `number | null`. -/
def maFieldNullable : MAField → Bool
  | .sma200 => true
  | _ => false

/-- Modelled from the spec: the backend simple-moving-average computation
(the indicator calculator's Python source is not in the snapshot).  A
series shorter than the window reports the average unavailable (`none`);
otherwise the mean of the most recent `w` closes. -/
def smaOpt (w : Nat) (closes : List ℚ) : Option ℚ :=
  if closes.length < w then none
  else some ((List.drop (closes.length - w) closes).sum / (w : ℚ))

/-- Rendering of the SMA-200 cell in `TechnicalIndicators.tsx`
(line 89): `sma_200 ? '$' + sma_200.toFixed(2) : 'N/A'`.  JavaScript
truthiness makes both `null` and `0` render as `"N/A"`; digit formatting
(`toFixed(2)`) is abstracted as `toString`. -/
def renderSMA200 (v : Option ℚ) : String :=
  match v with
  | none => "N/A"
  | some q => if q = 0 then "N/A" else "$" ++ toString q

/-- **C2 (as stated) is false**: not every moving-average field of the
result type admits an "unavailable" representation — `sma_20` (like
`sma_50`, `ema_12`, `ema_26`) is declared plain `number`, never null. -/
theorem not_all_ma_fields_nullable :
    ¬ (∀ f : MAField, maFieldNullable f = true) := by
  intro h
  exact absurd (h MAField.sma20) (by decide)

/-- **C2 (amended).** A series shorter than the 200-period window reports
SMA-200 unavailable (`none`), and the frontend renders that as `"N/A"`;
among the moving-average fields of the result type, exactly `sma_200`
admits an "unavailable" (null) representation. -/
theorem sma200_unavailable_on_short_series (closes : List ℚ)
    (h : closes.length < 200) :
    smaOpt 200 closes = none ∧ renderSMA200 (smaOpt 200 closes) = "N/A" ∧
    (∀ f : MAField, maFieldNullable f = true ↔ f = MAField.sma200) := by
  have hs : smaOpt 200 closes = none := by
    unfold smaOpt
    rw [if_pos h]
  refine ⟨hs, ?_, ?_⟩
  · rw [hs]
    rfl
  · intro f
    cases f <;> simp [maFieldNullable]

/-- Witness for C2 (amended) on the concrete three-point series
`[10, 11, 12]`, which is shorter than 200 points. -/
theorem sma200_unavailable_on_short_series_witness :
    smaOpt 200 [(10 : ℚ), 11, 12] = none ∧
    renderSMA200 (smaOpt 200 [(10 : ℚ), 11, 12]) = "N/A" ∧
    (∀ f : MAField, maFieldNullable f = true ↔ f = MAField.sma200) :=
  sma200_unavailable_on_short_series [(10 : ℚ), 11, 12] (by decide)

/-! ## RSI-14 (spec-modelled backend calculator) -/

/-- Consecutive differences of a price series (today's close minus the
previous close). -/
def priceChanges : List ℚ → List ℚ
  | [] => []
  | [_] => []
  | a :: b :: rest => (b - a) :: priceChanges (b :: rest)

/-- Modelled from the spec: per-period gains — the positive part of each
change, zero otherwise. -/
def gainsOf (closes : List ℚ) : List ℚ :=
  List.map (fun d => max d 0) (priceChanges closes)

/-- Modelled from the spec: per-period losses — the magnitude of each
negative change, zero otherwise. -/
def lossesOf (closes : List ℚ) : List ℚ :=
  List.map (fun d => max (-d) 0) (priceChanges closes)

/-- Modelled from the spec: Wilder smoothing over 14 periods — the simple
average of the first 14 values seeds the smoothed average, and each later
value is folded in with weight 1/14. -/
def wilderAvg14 (xs : List ℚ) : ℚ :=
  List.foldl (fun a x => (a * 13 + x) / 14)
    ((List.take 14 xs).sum / 14) (List.drop 14 xs)

/-- Modelled from the spec: RSI-14 via the standard Wilder smoothing of
average gains and losses.  When the average loss is zero the RSI is 100;
otherwise `100 - 100 / (1 + RS)` with `RS = avgGain / avgLoss`. -/
def rsi14 (closes : List ℚ) : ℚ :=
  let avgGain := wilderAvg14 (gainsOf closes)
  let avgLoss := wilderAvg14 (lossesOf closes)
  if avgLoss = 0 then 100 else 100 - 100 / (1 + avgGain / avgLoss)

theorem wilderAvg14_nonneg (xs : List ℚ) (hxs : ∀ x ∈ xs, 0 ≤ x) :
    0 ≤ wilderAvg14 xs := by
  unfold wilderAvg14
  have hseed : 0 ≤ (List.take 14 xs).sum / 14 := by
    apply div_nonneg _ (by norm_num)
    exact List.sum_nonneg (fun x hx => hxs x (List.mem_of_mem_take hx))
  have hdrop : ∀ x ∈ List.drop 14 xs, 0 ≤ x :=
    fun x hx => hxs x (List.mem_of_mem_drop hx)
  revert hdrop
  generalize (List.take 14 xs).sum / 14 = a at hseed
  generalize List.drop 14 xs = ys
  intro hys
  induction ys generalizing a with
  | nil => simpa using hseed
  | cons y ys ih =>
    simp only [List.foldl_cons]
    apply ih
    · apply div_nonneg _ (by norm_num)
      have hy : 0 ≤ y := hys y (by simp)
      nlinarith
    · intro x hx
      exact hys x (by simp [hx])

theorem avgGain_nonneg (closes : List ℚ) :
    0 ≤ wilderAvg14 (gainsOf closes) := by
  apply wilderAvg14_nonneg
  intro x hx
  unfold gainsOf at hx
  obtain ⟨d, _, hd⟩ := List.mem_map.mp hx
  rw [← hd]
  exact le_max_right d 0

theorem avgLoss_nonneg (closes : List ℚ) :
    0 ≤ wilderAvg14 (lossesOf closes) := by
  apply wilderAvg14_nonneg
  intro x hx
  unfold lossesOf at hx
  obtain ⟨d, _, hd⟩ := List.mem_map.mp hx
  rw [← hd]
  exact le_max_right (-d) 0

/-- **C3.** The RSI-14 value lies in the closed interval [0, 100] — proved
for every input price series, which in particular covers every
non-degenerate one. -/
theorem rsi14_bounded (closes : List ℚ) :
    0 ≤ rsi14 closes ∧ rsi14 closes ≤ 100 := by
  unfold rsi14
  have hg : 0 ≤ wilderAvg14 (gainsOf closes) := avgGain_nonneg closes
  have hl : 0 ≤ wilderAvg14 (lossesOf closes) := avgLoss_nonneg closes
  by_cases h0 : wilderAvg14 (lossesOf closes) = 0
  · rw [if_pos h0]
    norm_num
  · rw [if_neg h0]
    have hlpos : 0 < wilderAvg14 (lossesOf closes) := lt_of_le_of_ne hl (Ne.symm h0)
    have hrs : 0 ≤ wilderAvg14 (gainsOf closes) / wilderAvg14 (lossesOf closes) :=
      div_nonneg hg hl
    have hden : (1 : ℚ) ≤ 1 + wilderAvg14 (gainsOf closes) / wilderAvg14 (lossesOf closes) := by
      linarith
    have hfrac_pos : 0 < (100 : ℚ) / (1 + wilderAvg14 (gainsOf closes) / wilderAvg14 (lossesOf closes)) :=
      div_pos (by norm_num) (by linarith)
    have hfrac_le : (100 : ℚ) / (1 + wilderAvg14 (gainsOf closes) / wilderAvg14 (lossesOf closes)) ≤ 100 :=
      div_le_self (by norm_num) hden
    constructor <;> linarith

/-! ## Trend classification (spec-modelled backend rule) -/

/-- Modelled from the spec: the backend trend rule (the indicator
calculator's Python source is not in the snapshot) — current price above
both SMA-20 and SMA-50 gives `bullish`, below both gives `bearish`,
every other case gives `neutral`. -/
def classifyTrend (price sma20 sma50 : ℚ) : Sentiment :=
  if price > sma20 ∧ price > sma50 then .bullish
  else if price < sma20 ∧ price < sma50 then .bearish
  else .neutral

/-- **C4.** The trend is `bullish` exactly when the price is above both
SMA-20 and SMA-50, `bearish` exactly when below both, and `neutral` in
every other case; in particular equality with either average yields
`neutral`. -/
theorem classifyTrend_characterization (price sma20 sma50 : ℚ) :
    (classifyTrend price sma20 sma50 = .bullish ↔
      price > sma20 ∧ price > sma50) ∧
    (classifyTrend price sma20 sma50 = .bearish ↔
      price < sma20 ∧ price < sma50) ∧
    (classifyTrend price sma20 sma50 = .neutral ↔
      ¬ (price > sma20 ∧ price > sma50) ∧
      ¬ (price < sma20 ∧ price < sma50)) ∧
    classifyTrend price price sma50 = .neutral ∧
    classifyTrend price sma20 price = .neutral := by
  have hx : ¬ ((price > sma20 ∧ price > sma50) ∧
      (price < sma20 ∧ price < sma50)) := by
    rintro ⟨⟨h1, _⟩, ⟨h2, _⟩⟩
    exact absurd h2 (not_lt_of_gt h1)
  unfold classifyTrend
  by_cases h1 : price > sma20 ∧ price > sma50
  · have h2 : ¬ (price < sma20 ∧ price < sma50) := fun h2 => hx ⟨h1, h2⟩
    rw [if_pos h1]
    refine ⟨by simp [h1], by simp [h2], by simp [h1], ?_, ?_⟩
    · rw [if_neg (by simp), if_neg (by simp)]
    · rw [if_neg (by simp), if_neg (by simp)]
  · rw [if_neg h1]
    by_cases h2 : price < sma20 ∧ price < sma50
    · rw [if_pos h2]
      refine ⟨by simp [h1], by simp [h2], by simp [h2], ?_, ?_⟩
      · rw [if_neg (by simp), if_neg (by simp)]
      · rw [if_neg (by simp), if_neg (by simp)]
    · rw [if_neg h2]
      refine ⟨by simp [h1], by simp [h2], by simp [h1, h2], ?_, ?_⟩
      · rw [if_neg (by simp), if_neg (by simp)]
      · rw [if_neg (by simp), if_neg (by simp)]

/-! ## Investment briefs (`InvestmentBrief` typing; backend route spec-modelled) -/

/-- The `InvestmentBrief` interface from the shared TypeScript typings.
The optional `cached?` flag is an `Option Bool`. -/
structure InvestmentBrief where
  ticker : String
  company_name : String
  generated_at : String
  executive_summary : String
  bull_case : List String
  bear_case : List String
  key_risks : List String
  catalysts : List String
  technical_outlook : String
  financial_health : String
  recent_developments : String
  conclusion : String
  sentiment : Sentiment
  cached : Option Bool := none
deriving DecidableEq, Repr

/-- A persisted brief store: ticker to brief. -/
def BriefStore : Type := List (String × InvestmentBrief)

/-- Lookup of a cached brief by ticker. -/
def lookupBrief (store : BriefStore) (ticker : String) :
    Option InvestmentBrief :=
  Option.map Prod.snd (List.find? (fun p => p.1 = ticker) store)

/-- The outcome of one brief-generation request: the returned brief,
whether the LLM endpoint was called, and the store afterwards. -/
structure GenerateOutcome where
  brief : InvestmentBrief
  llmCalled : Bool
  store : BriefStore

/-- Modelled from the spec: the backend `POST /brief/{ticker}/generate`
handler (`/backend/app/api/routes/brief.py`, not in the snapshot) checks
the cache first unless `force_regenerate` is true; a cache hit returns the
stored brief flagged `cached = true` without calling the LLM and leaves
the store unchanged, otherwise the LLM output is persisted, replacing any
prior brief for the ticker. -/
def generateBriefOp (store : BriefStore) (ticker : String)
    (forceRegenerate : Bool) (llm : String → InvestmentBrief) :
    GenerateOutcome :=
  match forceRegenerate, lookupBrief store ticker with
  | false, some b =>
      { brief := { b with cached := some true }, llmCalled := false,
        store := store }
  | _, _ =>
      let nb := { llm ticker with cached := some false }
      { brief := nb, llmCalled := true,
        store := (ticker, nb) :: List.filter (fun p => p.1 ≠ ticker) store }

/-- **C5.** With an existing cached brief and `force_regenerate = false`,
the operation returns the cached brief with `cached = true`, makes no LLM
call, and leaves the stored brief (the whole store) unchanged. -/
theorem generateBrief_cached_hit (store : BriefStore) (ticker : String)
    (b : InvestmentBrief) (llm : String → InvestmentBrief)
    (h : lookupBrief store ticker = some b) :
    (generateBriefOp store ticker false llm).brief =
      { b with cached := some true } ∧
    (generateBriefOp store ticker false llm).llmCalled = false ∧
    (generateBriefOp store ticker false llm).store = store := by
  unfold generateBriefOp
  rw [h]
  exact ⟨rfl, rfl, rfl⟩

/-- A concrete brief used by the C5 witness. -/
def demoBrief : InvestmentBrief :=
  { ticker := "NVDA", company_name := "NVIDIA Corp.",
    generated_at := "2026-01-01", executive_summary := "s",
    bull_case := ["b"], bear_case := ["r"], key_risks := ["k"],
    catalysts := ["c"], technical_outlook := "t",
    financial_health := "f", recent_developments := "d",
    conclusion := "done", sentiment := .bullish, cached := none }

/-- Witness for C5 at the concrete store holding a brief for `"NVDA"`. -/
theorem generateBrief_cached_hit_witness :
    (generateBriefOp [("NVDA", demoBrief)] "NVDA" false
        (fun _ => demoBrief)).brief = { demoBrief with cached := some true } ∧
    (generateBriefOp [("NVDA", demoBrief)] "NVDA" false
        (fun _ => demoBrief)).llmCalled = false ∧
    (generateBriefOp [("NVDA", demoBrief)] "NVDA" false
        (fun _ => demoBrief)).store = [("NVDA", demoBrief)] :=
  generateBrief_cached_hit [("NVDA", demoBrief)] "NVDA" demoBrief
    (fun _ => demoBrief) (by decide)

/-! ## Watchlist add (frontend guard from source; backend route spec-modelled) -/

/-- The guard in `StockQuoteCard.handleAddToWatchlist`: the add mutation is
issued only when the quote's ticker is not already in the watchlist
(`if (!isInWatchlist) { ... mutate(...) }` with
`isInWatchlist = watchlist?.some(item => item.ticker === quote.ticker)`).
Returns whether a request is issued. -/
def handleAddToWatchlist (watchlistTickers : List String)
    (quoteTicker : String) : Bool :=
  !(decide (quoteTicker ∈ watchlistTickers))

/-- Modelled from the spec: the backend watchlist `add` route (not in the
snapshot) — ticker unique per owner, a duplicate add is rejected with an
error, a new pair is appended. -/
def watchlistAdd (wl : List (String × String)) (owner ticker : String) :
    Except String (List (String × String)) :=
  if (owner, ticker) ∈ wl then Except.error "Ticker already in watchlist"
  else Except.ok (wl ++ [(owner, ticker)])

/-- **C6.** Adding a ticker already present for the same owner is rejected
with an error (so no second entry is ever created), and the frontend guard
issues no request at all for a ticker already in the watchlist. -/
theorem watchlistAdd_duplicate_rejected (wl : List (String × String))
    (owner ticker : String) (h : (owner, ticker) ∈ wl) :
    watchlistAdd wl owner ticker =
      Except.error "Ticker already in watchlist" ∧
    (∀ (ts : List String) (q : String), q ∈ ts →
      handleAddToWatchlist ts q = false) := by
  constructor
  · unfold watchlistAdd
    rw [if_pos h]
  · intro ts q hq
    unfold handleAddToWatchlist
    simp [hq]

/-- Witness for C6 at a concrete one-owner watchlist containing
`("alice", "AAPL")`. -/
theorem watchlistAdd_duplicate_rejected_witness :
    watchlistAdd [("alice", "AAPL")] "alice" "AAPL" =
      Except.error "Ticker already in watchlist" ∧
    (∀ (ts : List String) (q : String), q ∈ ts →
      handleAddToWatchlist ts q = false) :=
  watchlistAdd_duplicate_rejected [("alice", "AAPL")] "alice" "AAPL"
    (by decide)

/-! ## Brief endpoints of the frontend API client (`services/api.ts`) -/

/-- An HTTP request as issued by the axios client: method, path under the
`/api/v1` base, and the JSON body's `force_regenerate` field when
present. -/
structure ApiRequest where
  method : String
  path : String
  forceRegenerateBody : Option Bool
deriving DecidableEq, Repr

/-- `getBrief` from `services/api.ts`:
`api.get('/brief/' + ticker)`. -/
def getBriefRequest (ticker : String) : ApiRequest :=
  { method := "GET", path := "/brief/" ++ ticker,
    forceRegenerateBody := none }

/-- `generateBrief` from `services/api.ts`:
`api.post('/brief/' + ticker + '/generate', { force_regenerate })`. -/
def generateBriefRequest (ticker : String) (forceRegenerate : Bool) :
    ApiRequest :=
  { method := "POST", path := "/brief/" ++ ticker ++ "/generate",
    forceRegenerateBody := some forceRegenerate }

/-- **C7 (as stated) is false**: at the concrete ticker `"NVDA"` the
client's generate request does not target the collection path
`"/brief"`. -/
theorem generateBrief_path_not_collection :
    (generateBriefRequest "NVDA" false).path ≠ "/brief" := by
  decide

/-- **C7 (amended).** The client's generate request is a POST to
`/brief/{ticker}/generate` with the ticker in the path and the
force-regenerate flag in the body, while `GET /brief/{ticker}` is the
get-cached endpoint. -/
theorem generateBrief_request_shape (ticker : String)
    (forceRegenerate : Bool) :
    generateBriefRequest ticker forceRegenerate =
      { method := "POST", path := "/brief/" ++ ticker ++ "/generate",
        forceRegenerateBody := some forceRegenerate } ∧
    getBriefRequest ticker =
      { method := "GET", path := "/brief/" ++ ticker,
        forceRegenerateBody := none } :=
  ⟨rfl, rfl⟩

/-! ## Stock quotes: upstream mapping and numeric rendering -/

/-- The `StockQuote` interface from the shared TypeScript typings:
`market_cap`, `pe_ratio` and `eps` are `number | null`, every other field
is required. -/
structure StockQuote where
  ticker : String
  name : String
  price : ℚ
  change : ℚ
  change_percent : ℚ
  volume : ℚ
  market_cap : Option ℚ
  pe_ratio : Option ℚ
  eps : Option ℚ
  week_52_high : ℚ
  week_52_low : ℚ
  updated_at : String
deriving DecidableEq, Repr

/-- Modelled from the spec: the raw upstream provider response for a quote,
whose optional fields may be missing (`none`). -/
structure UpstreamQuote where
  ticker : String
  name : String
  price : ℚ
  change : ℚ
  changePercent : ℚ
  volume : ℚ
  marketCap : Option ℚ
  peRatio : Option ℚ
  eps : Option ℚ
  week52High : ℚ
  week52Low : ℚ
  updatedAt : String
deriving DecidableEq, Repr

/-- Modelled from the spec: the backend maps the upstream response
field-by-field into the output schema; a missing upstream field maps to an
explicit `none`, never a zero or other default. -/
def mapQuote (u : UpstreamQuote) : StockQuote :=
  { ticker := u.ticker, name := u.name, price := u.price,
    change := u.change, change_percent := u.changePercent,
    volume := u.volume, market_cap := u.marketCap,
    pe_ratio := u.peRatio, eps := u.eps,
    week_52_high := u.week52High, week_52_low := u.week52Low,
    updated_at := u.updatedAt }

/-- Abstraction of JavaScript's locale digit rendering
(`num.toLocaleString('en-US', { maximumFractionDigits: decimals })`):
rendered here as the plain decimal string of the rational, with the
digit-count argument not affecting which number is shown. -/
def localeString (n : ℚ) (_decimals : Nat) : String :=
  toString n

/-- `formatNumber` from `StockQuoteCard`: `null` renders as `'N/A'`,
otherwise the locale-formatted number. -/
def formatNumber (num : Option ℚ) (decimals : Nat := 2) : String :=
  match num with
  | none => "N/A"
  | some n => localeString n decimals

/-- `formatMarketCap` from `StockQuoteCard`: `null` renders as `'N/A'`,
otherwise the value scaled to trillions / billions / millions with a `$`
prefix (`toFixed(2)` abstracted as decimal rendering). -/
def formatMarketCap (num : Option ℚ) : String :=
  match num with
  | none => "N/A"
  | some n =>
    if 1000000000000 ≤ n then "$" ++ toString (n / 1000000000000) ++ "T"
    else if 1000000000 ≤ n then "$" ++ toString (n / 1000000000) ++ "B"
    else if 1000000 ≤ n then "$" ++ toString (n / 1000000) ++ "M"
    else "$" ++ toString n

/-- **C8.** A missing upstream field (market cap, P/E ratio, EPS) maps to
an explicit `none` in the output record — never a zero — and the quote
card renders that `none` as `"N/A"`. -/
theorem missing_fields_map_to_null (u : UpstreamQuote) :
    (u.marketCap = none → (mapQuote u).market_cap = none ∧
      formatMarketCap (mapQuote u).market_cap = "N/A") ∧
    (u.peRatio = none → (mapQuote u).pe_ratio = none ∧
      formatNumber (mapQuote u).pe_ratio 2 = "N/A") ∧
    (u.eps = none → (mapQuote u).eps = none ∧
      formatNumber (mapQuote u).eps 2 = "N/A") := by
  refine ⟨fun h => ?_, fun h => ?_, fun h => ?_⟩ <;>
    simp [mapQuote, formatMarketCap, formatNumber, h]

/-- A concrete upstream quote with all optional fields missing, used by
the C8 witness. -/
def demoUpstream : UpstreamQuote :=
  { ticker := "AAPL", name := "Apple Inc.", price := 100, change := 1,
    changePercent := 1, volume := 1000, marketCap := none,
    peRatio := none, eps := none, week52High := 120, week52Low := 80,
    updatedAt := "2026-01-01" }

/-- Witness for C8 at the concrete upstream quote missing its market cap,
P/E ratio and EPS. -/
theorem missing_fields_map_to_null_witness :
    (mapQuote demoUpstream).market_cap = none ∧
    formatMarketCap (mapQuote demoUpstream).market_cap = "N/A" ∧
    (mapQuote demoUpstream).pe_ratio = none ∧
    formatNumber (mapQuote demoUpstream).pe_ratio 2 = "N/A" ∧
    (mapQuote demoUpstream).eps = none ∧
    formatNumber (mapQuote demoUpstream).eps 2 = "N/A" := by
  have h := missing_fields_map_to_null demoUpstream
  obtain ⟨h1, h2⟩ := h.1 (by decide)
  obtain ⟨h3, h4⟩ := h.2.1 (by decide)
  obtain ⟨h5, h6⟩ := h.2.2 (by decide)
  exact ⟨h1, h2, h3, h4, h5, h6⟩

/-! ## Ticker input normalization (search form and watchlist add form) -/

/-- Model of JavaScript's `String.prototype.trim`: whitespace stripped
from both ends of the character list. -/
def trimStr (s : String) : String :=
  ⟨(((s.data.dropWhile Char.isWhitespace).reverse.dropWhile
      Char.isWhitespace).reverse)⟩

/-- Model of JavaScript's `String.prototype.toUpperCase` on the ASCII
tickers in play: each character uppercased. -/
def toUpperCase (s : String) : String :=
  ⟨s.data.map Char.toUpper⟩

/-- `handleSubmit` from `StockSearch`: the input is trimmed and
uppercased; an empty result issues no search
(`const trimmed = ticker.trim().toUpperCase(); if (trimmed) onSearch(trimmed)`).
Returns the ticker searched for, if any. -/
def handleSubmitSearch (ticker : String) : Option String :=
  let trimmed := toUpperCase (trimStr ticker)
  if trimmed = "" then none else some trimmed

/-- `handleAdd` from `WatchlistPanel`: the input is trimmed and
uppercased; an empty result issues no add request
(`const ticker = newTicker.trim().toUpperCase(); if (!ticker) return;`).
Returns the ticker sent to the add mutation, if any. -/
def handleAddForm (newTicker : String) : Option String :=
  let ticker := toUpperCase (trimStr newTicker)
  if ticker = "" then none else some ticker

/-- **C9.** Every ticker submitted via the search form or the watchlist
add form is the trimmed, uppercased input; and when the trimmed input is
empty neither form issues any request. -/
theorem ticker_input_normalized (s : String) :
    (trimStr s = "" → handleSubmitSearch s = none ∧ handleAddForm s = none) ∧
    (∀ t, handleSubmitSearch s = some t → t = toUpperCase (trimStr s)) ∧
    (∀ t, handleAddForm s = some t → t = toUpperCase (trimStr s)) ∧
    (toUpperCase (trimStr s) ≠ "" →
      handleSubmitSearch s = some (toUpperCase (trimStr s)) ∧
      handleAddForm s = some (toUpperCase (trimStr s))) := by
  refine ⟨?_, ?_, ?_, ?_⟩
  · intro h
    have hu : toUpperCase (trimStr s) = "" := by
      rw [h]
      rfl
    constructor
    · unfold handleSubmitSearch
      rw [if_pos hu]
    · unfold handleAddForm
      rw [if_pos hu]
  · intro t ht
    unfold handleSubmitSearch at ht
    by_cases hu : toUpperCase (trimStr s) = ""
    · rw [if_pos hu] at ht
      exact absurd ht (by simp)
    · rw [if_neg hu] at ht
      exact (Option.some_inj.mp ht).symm
  · intro t ht
    unfold handleAddForm at ht
    by_cases hu : toUpperCase (trimStr s) = ""
    · rw [if_pos hu] at ht
      exact absurd ht (by simp)
    · rw [if_neg hu] at ht
      exact (Option.some_inj.mp ht).symm
  · intro hu
    constructor
    · unfold handleSubmitSearch
      rw [if_neg hu]
    · unfold handleAddForm
      rw [if_neg hu]

/-- Witness for C9: the raw input `" nvda "` is searched and added as
`"NVDA"`, and the all-whitespace input `"  "` issues no request. -/
theorem ticker_input_normalized_witness :
    (handleSubmitSearch "  nvda " = some "NVDA" ∧
      handleAddForm "  nvda " = some "NVDA") ∧
    (handleSubmitSearch "  " = none ∧ handleAddForm "  " = none) := by
  constructor
  · have h := (ticker_input_normalized "  nvda ").2.2.2 (by decide)
    have he : toUpperCase (trimStr "  nvda ") = "NVDA" := by decide
    rw [he] at h
    exact h
  · exact (ticker_input_normalized "  ").1 (by decide)

/-! ## Per-ticker query-cache refresh (`RefreshButton.tsx`) -/

/-- One component of a TanStack Query key: the keys in this app hold
strings (e.g. `'technical'`, the ticker, `'indicators'`), numbers
(`user?.id`) or `undefined`. -/
inductive QueryKeyPart where
  | str (s : String)
  | num (n : Int)
  | undef
deriving DecidableEq, Repr

/-- The predicate passed to `invalidateQueries` in
`RefreshButton.handleRefresh`: some component of the query key is a
string whose uppercasing equals the uppercased ticker
(`queryKey.some(key => typeof key === 'string' && key.toUpperCase() === ticker.toUpperCase())`). -/
def keyMatchesTicker (queryKey : List QueryKeyPart) (ticker : String) :
    Bool :=
  List.any queryKey fun k =>
    match k with
    | .str s => toUpperCase s == toUpperCase ticker
    | _ => false

/-- A client-side cached query: its key and whether it has been marked
invalidated. -/
structure CachedQuery where
  key : List QueryKeyPart
  invalidated : Bool
deriving DecidableEq, Repr

/-- `handleRefresh` from `RefreshButton.tsx`: every cached query whose key
matches the ticker is marked invalidated; every other query is left
untouched. -/
def handleRefresh (ticker : String) (cache : List CachedQuery) :
    List CachedQuery :=
  List.map
    (fun q => if keyMatchesTicker q.key ticker then
        { q with invalidated := true }
      else q) cache

/-- **C10.** The refresh invalidates exactly the cached queries whose key
contains a string equal to the ticker under case-insensitive comparison,
and leaves every other cached query unchanged; the match predicate holds
precisely when such a string component exists. -/
theorem refresh_invalidates_exactly_matching (ticker : String)
    (cache : List CachedQuery) :
    (handleRefresh ticker cache).length = cache.length ∧
    (∀ (i : Nat) (h : i < cache.length)
        (h' : i < (handleRefresh ticker cache).length),
      (keyMatchesTicker (cache.get ⟨i, h⟩).key ticker = true →
        (handleRefresh ticker cache).get ⟨i, h'⟩ =
          { cache.get ⟨i, h⟩ with invalidated := true }) ∧
      (keyMatchesTicker (cache.get ⟨i, h⟩).key ticker = false →
        (handleRefresh ticker cache).get ⟨i, h'⟩ = cache.get ⟨i, h⟩)) ∧
    (∀ queryKey : List QueryKeyPart,
      keyMatchesTicker queryKey ticker = true ↔
        ∃ s : String, QueryKeyPart.str s ∈ queryKey ∧
          toUpperCase s = toUpperCase ticker) := by
  refine ⟨by simp [handleRefresh], ?_, ?_⟩
  · intro i h h'
    have hg : (handleRefresh ticker cache).get ⟨i, h'⟩ =
        (fun q => if keyMatchesTicker q.key ticker then
            { q with invalidated := true }
          else q) (cache.get ⟨i, h⟩) := by
      simp [handleRefresh]
    constructor
    · intro hm
      rw [hg]
      simp only [hm, if_pos]
    · intro hm
      rw [hg]
      simp only [hm]
      rw [if_neg (by simp)]
  · intro queryKey
    unfold keyMatchesTicker
    rw [List.any_eq_true]
    constructor
    · rintro ⟨k, hk, hp⟩
      cases k with
      | str s =>
        refine ⟨s, hk, ?_⟩
        simpa using hp
      | num n => simp at hp
      | undef => simp at hp
    · rintro ⟨s, hs, he⟩
      refine ⟨QueryKeyPart.str s, hs, ?_⟩
      simpa using he

/-- A concrete two-entry query cache used by the C10 witness. -/
def demoCache : List CachedQuery :=
  [{ key := [.str "technical", .str "NVDA", .str "indicators"],
     invalidated := false },
   { key := [.str "technical", .str "AAPL", .str "indicators"],
     invalidated := false }]

/-- Witness for C10: refreshing `"nvda"` invalidates the NVDA query and
leaves the AAPL query unchanged. -/
theorem refresh_invalidates_exactly_matching_witness :
    (handleRefresh "nvda" demoCache).get ⟨0, by decide⟩ =
      { key := [.str "technical", .str "NVDA", .str "indicators"],
        invalidated := true } ∧
    (handleRefresh "nvda" demoCache).get ⟨1, by decide⟩ =
      { key := [.str "technical", .str "AAPL", .str "indicators"],
        invalidated := false } := by
  have h := refresh_invalidates_exactly_matching "nvda" demoCache
  constructor
  · exact (h.2.1 0 (by decide) (by decide)).1 (by decide)
  · exact (h.2.1 1 (by decide) (by decide)).2 (by decide)

end InvestIQ
